import Mathlib

/-!
Shallow embedding of the two programs of this repository:
`src/app.py` (a Flask backend resolving location tokens and fetching
weather / air-quality data per point) and `src/def.py` (a batch job
rendering one NDVI image per year).

Conventions of the embedding:
* Python floats are modelled as rationals (`Rat`); every concrete value the
  development evaluates (40.0, -74.0, 0.0, ...) is exactly representable.
* A JSON leaf value stored in a response's `current` object is modelled by
  the string Python's f-string interpolation would render it to, since the
  code only ever observes such values through interpolation (`str`), with
  Python `None` rendering as the literal string "None".
* Python dicts are modelled as association lists (`List (String × _)`);
  `dict.get` with a default is `lookupD`.
* External collaborators (the geocoder, the two HTTP endpoints, the
  satellite-data provider) are parameters of the functions that call them;
  an exception raised by a collaborator is a constructor of its outcome
  type, and code that catches an exception matches on that constructor.
-/

/-- Python truthiness-free default lookup: `d.get(k, default)` on a dict
modelled as an association list. -/
def lookupD (l : List (String × String)) (k d : String) : String :=
  (l.lookup k).getD d

/-- Values that occur in the response records built by `app.py`:
booleans (`success`), numbers (`latitude` / `longitude`), strings. -/
inductive RVal where
  | vB (b : Bool)
  | vQ (q : Rat)
  | vS (s : String)
deriving DecidableEq, Repr

/-- A response record (a Python dict) of `app.py`, as an association list
in construction order. -/
def Record := List (String × RVal)
deriving DecidableEq

/-- Body of a successfully parsed 2xx JSON response from either of the two
weather / air-quality endpoints: the keys `app.py` touches.  `none` on
`current` / `current_units` models the key being structurally absent
(`data["current"]` then raises `KeyError`). -/
structure ApiBody where
  timezone : Option String
  current : Option (List (String × String))
  current_units : Option (List (String × String))
deriving DecidableEq

/-- Outcome of one `requests.get(...)` + `raise_for_status()` + `.json()`
sequence: either an exception (network failure, non-2xx status, malformed
JSON), carrying its `str(e)` text, or a parsed body. -/
inductive FetchOutcome where
  | exn (e : String)
  | ok (body : ApiBody)
deriving DecidableEq

/-- Python renders `str(KeyError(k))` as the key wrapped in single quotes. -/
def keyErrText (k : String) : String :=
  (Char.ofNat 39).toString ++ k ++ (Char.ofNat 39).toString

/-- Formats one measurement exactly as the f-strings of
`src/app.py:71-82` do: `f"{current.get(k)} {units.get(k, 'N/A')}"`, a
missing value rendering as Python `None` does, i.e. the string "None". -/
def fmtMeasurement (cur units : List (String × String)) (k : String) : String :=
  lookupD cur k ("None") ++ (" ") ++ lookupD units k ("N/A")

/-- The failure record of `src/app.py:88-93`. -/
def fetchFailRecord (lat lon : Rat) (e : String) : Record :=
  [(("success"), .vB false),
   (("latitude"), .vQ lat),
   (("longitude"), .vQ lon),
   (("error"), .vS (("Failed to fetch data: ") ++ e))]

/-- The success record of `src/app.py:66-84`. -/
def fetchSuccessRecord (lat lon : Rat) (tz : Option String)
    (airCur airUnits wCur wUnits : List (String × String)) : Record :=
  [(("success"), .vB true),
   (("latitude"), .vQ lat),
   (("longitude"), .vQ lon),
   (("timezone"), .vS (tz.getD ("N/A"))),
   (("co"), .vS (fmtMeasurement airCur airUnits ("carbon_monoxide"))),
   (("no2"), .vS (fmtMeasurement airCur airUnits ("nitrogen_dioxide"))),
   (("o3"), .vS (fmtMeasurement airCur airUnits ("ozone"))),
   (("so2"), .vS (fmtMeasurement airCur airUnits ("sulphur_dioxide"))),
   (("pm10"), .vS (fmtMeasurement airCur airUnits ("pm10"))),
   (("pm2_5"), .vS (fmtMeasurement airCur airUnits ("pm2_5"))),
   (("ammonia"), .vS (fmtMeasurement airCur airUnits ("ammonia"))),
   (("aerosol_depth"), .vS (fmtMeasurement airCur airUnits ("aerosol_optical_depth"))),
   (("dust"), .vS (fmtMeasurement airCur airUnits ("dust"))),
   (("uv_index"), .vS (fmtMeasurement airCur airUnits ("uv_index"))),
   (("temp"), .vS (fmtMeasurement wCur wUnits ("temperature_2m"))),
   (("cloud_cover"), .vS (fmtMeasurement wCur wUnits ("cloud_cover"))),
   (("weather_code"), .vS (lookupD wCur ("weather_code") ("N/A")))]

/-- `get_single_location_data` of `src/app.py:32-93`.  The two HTTP calls
are made in order (air first, weather second); key extraction follows in
source order (`air["current"]`, `air["current_units"]`, `weather["current"]`,
`weather["current_units"]`); any exception anywhere yields the failure
record via the single `except` clause. -/
def get_single_location_data (lat lon : Rat)
    (airOut weatherOut : FetchOutcome) : Record :=
  match airOut with
  | .exn e => fetchFailRecord lat lon e
  | .ok airBody =>
    match weatherOut with
    | .exn e => fetchFailRecord lat lon e
    | .ok wBody =>
      match airBody.current with
      | none => fetchFailRecord lat lon (keyErrText ("current"))
      | some airCur =>
        match airBody.current_units with
        | none => fetchFailRecord lat lon (keyErrText ("current_units"))
        | some airUnits =>
          match wBody.current with
          | none => fetchFailRecord lat lon (keyErrText ("current"))
          | some wCur =>
            match wBody.current_units with
            | none => fetchFailRecord lat lon (keyErrText ("current_units"))
            | some wUnits =>
              fetchSuccessRecord lat lon airBody.timezone airCur airUnits wCur wUnits

/-- Value of a digit character. -/
def digitsToNat (ds : List Char) : Nat :=
  ds.foldl (fun n c => 10 * n + (c.toNat - 48)) 0

/-- Python's default `str.strip()` whitespace characters, ASCII range
(space, tab, newline, carriage return, vertical tab, form feed). -/
def isPySpace (c : Char) : Bool :=
  c = ' ' || c = (Char.ofNat 9) || c = (Char.ofNat 10) ||
    c = (Char.ofNat 13) || c = (Char.ofNat 11) || c = (Char.ofNat 12)

/-- Python `str.strip()`: drop leading and trailing whitespace. -/
def pyStrip (cs : List Char) : List Char :=
  ((cs.dropWhile isPySpace).reverse.dropWhile isPySpace).reverse

/-- Python `str.split(sep)` for a one-character separator: keeps empty
parts, and the empty string yields one empty part. -/
def splitOnChar (sep : Char) : List Char → List (List Char)
  | [] => [[]]
  | c :: rest =>
    if c = sep then [] :: splitOnChar sep rest
    else
      match splitOnChar sep rest with
      | [] => [[c]]
      | t :: ts => (c :: t) :: ts

/-- Matches the unsigned part of one regex half, the pattern fragment
matching one or more digits, then an optional dot, then zero or more
digits.  Like Python's default re mode restricted to ASCII input; the
claims only evaluate ASCII tokens. -/
def mantissaPat (cs : List Char) : Bool :=
  let p := cs.span Char.isDigit
  !p.1.isEmpty &&
    (match p.2 with
     | [] => true
     | c :: rest => c = '.' && rest.all Char.isDigit)

/-- One half of the coordinate-pair regex of `src/app.py:115`: an optional
minus sign followed by the mantissa fragment. -/
def halfPat (cs : List Char) : Bool :=
  match cs with
  | [] => mantissaPat []
  | c :: rest => if c = '-' then mantissaPat rest else mantissaPat (c :: rest)

/-- The anchored coordinate-pair regex of `src/app.py:115`.  The half
pattern can never contain a comma, so the regex matches exactly when the
string has exactly one comma and both halves match `halfPat`.  (The `$`
anchor would also accept one trailing newline, but every token reaching
the regex has been stripped of surrounding whitespace.) -/
def coordMatch (s : String) : Bool :=
  match splitOnChar ',' s.toList with
  | [a, b] => halfPat a && halfPat b
  | _ => false

/-- Lexing stage of Python `float()` on the shapes that can reach it in
`src/app.py:117`: an optional sign, a nonempty run of integer digits, an
optional dot followed by fraction digits.  Returns
(sign, integer digits, fraction digits), or `none` where `float()` would
raise `ValueError`. -/
def parsePartsUnsigned (sign : Bool) (cs : List Char) :
    Option (Bool × List Char × List Char) :=
  let p := cs.span Char.isDigit
  if p.1.isEmpty then none
  else
    match p.2 with
    | [] => some (sign, p.1, [])
    | c :: rest =>
      if c = '.' && rest.all Char.isDigit then some (sign, p.1, rest)
      else none

/-- The lexing stage with the optional leading minus sign. -/
def parseParts (cs : List Char) : Option (Bool × List Char × List Char) :=
  match cs with
  | [] => parsePartsUnsigned false []
  | c :: rest =>
    if c = '-' then parsePartsUnsigned true rest
    else parsePartsUnsigned false (c :: rest)

/-- Numeric value of the lexed parts; the decimal value of such a literal
is exact as a rational. -/
def partsToRat (sign : Bool) (intPart fracPart : List Char) : Rat :=
  let mag : Rat :=
    if fracPart.isEmpty then (digitsToNat intPart : Rat)
    else (digitsToNat intPart : Rat) +
      (digitsToNat fracPart : Rat) / (10 : Rat) ^ fracPart.length
  if sign then -mag else mag

/-- Python `float()` on one comma-separated half: lex, then evaluate. -/
def parseHalf (cs : List Char) : Option Rat :=
  (parseParts cs).map (fun t => partsToRat t.1 t.2.1 t.2.2)

/-- `lat, lon = map(float, loc_str.split(','))` of `src/app.py:117`,
with the surrounding `except (ValueError, IndexError): pass` modelled as
`none` (wrong number of parts, or a half `float()` rejects). -/
def parseCoordPair (s : String) : Option (Rat × Rat) :=
  match splitOnChar ',' s.toList with
  | [a, b] =>
    match parseHalf a, parseHalf b with
    | some x, some y => some (x, y)
    | _, _ => none
  | _ => none

/-- Outcome of one `geolocator.geocode(name, timeout=5)` call: a first
result with coordinates, no match (`None`), or a raised
`GeocoderTimedOut` / `GeocoderServiceError` with its message. -/
inductive GeoOutcome where
  | found (lat lon : Rat)
  | noMatch
  | err (e : String)
deriving DecidableEq

/-- `get_coordinates_from_location` of `src/app.py:21-30`: the first
result's coordinates, or `(None, None)` on no match; the two geocoder
exception classes are caught, logged and also produce `(None, None)`. -/
def get_coordinates_from_location (geocoder : String → GeoOutcome)
    (location_name : String) : Option Rat × Option Rat :=
  match geocoder location_name with
  | .found lat lon => (some lat, some lon)
  | .noMatch => (none, none)
  | .err _ => (none, none)

/-- The external world of one `/get_data` request: the geocoder and, per
coordinate pair, the outcomes of the air-quality and weather calls. -/
structure Env where
  geocoder : String → GeoOutcome
  air : Rat → Rat → FetchOutcome
  weather : Rat → Rat → FetchOutcome

/-- The resolution steps of the loop body, `src/app.py:113-122`: `lat, lon`
start as `None, None`; a regex match attempts the literal parse; if either
is still `None` (tested by identity, not truthiness) the geocoder is
consulted.  The second component records whether the geocoder was
invoked. -/
def resolveToken (geocoder : String → GeoOutcome) (loc_str : String) :
    (Option Rat × Option Rat) × Bool :=
  let parsed : Option Rat × Option Rat :=
    if coordMatch loc_str then
      match parseCoordPair loc_str with
      | some (x, y) => (some x, some y)
      | none => (none, none)
    else (none, none)
  if parsed.1.isNone || parsed.2.isNone then
    (get_coordinates_from_location geocoder loc_str, true)
  else (parsed, false)

/-- The unresolved-token failure record of `src/app.py:128-132`. -/
def resolveFailRecord (loc_str : String) : Record :=
  [(("success"), .vB false),
   (("location_input"), .vS loc_str),
   (("error"), .vS (("Could not find coordinates for location: ") ++ loc_str))]

/-- One iteration of the loop of `src/app.py:112-132`: resolve, then fetch
when both coordinates are present, else append the failure record. -/
def processToken (env : Env) (loc_str : String) : Record :=
  match (resolveToken env.geocoder loc_str).1 with
  | (some lat, some lon) =>
    get_single_location_data lat lon (env.air lat lon) (env.weather lat lon)
  | _ => resolveFailRecord loc_str

/-- `src/app.py:106,110`: strip the whole input, split on semicolons, strip
each token, drop tokens that are empty after stripping. -/
def tokenize (location_input : String) : List String :=
  (((splitOnChar ';' (pyStrip location_input.toList)).map pyStrip).filter
    (fun t => !t.isEmpty)).map (fun t => String.mk t)

/-- A `/get_data` HTTP response: status code plus the JSON body fields the
endpoint can emit. -/
structure Response where
  status : Nat
  success : Bool
  error : Option String
  results : Option (List Record)
deriving DecidableEq

/-- The fixed 400 error message of `src/app.py:137`. -/
def invalidInputMsg : String :=
  "Invalid input: Please provide a valid coordinate pair or location name."

/-- `get_data_endpoint` of `src/app.py:102-140`: one record is appended
per token, in order, so the loop is a map over the token list; an empty
`results` list yields the fixed 400 response, otherwise 200 with
`success: true` and the ordered results. -/
def get_data_endpoint (env : Env) (location_input : String) : Response :=
  let results := (tokenize location_input).map (processToken env)
  if results.isEmpty then
    { status := 400, success := false, error := some invalidInputMsg, results := none }
  else
    { status := 200, success := true, error := none, results := some results }

/-- Minimum of a raster, `np.nanmin` on the NaN-free rational model
(reached only with a nonempty array). -/
def listMin : List Rat → Rat
  | [] => 0
  | x :: xs => xs.foldl min x

/-- Maximum of a raster, `np.nanmax` on the NaN-free rational model. -/
def listMax : List Rat → Rat
  | [] => 0
  | x :: xs => xs.foldl max x

/-- The min-max normalization of `src/def.py:101-105`: when the range is
positive, rescale each pixel; otherwise output zeros of the same shape
(`np.zeros_like`). -/
def normalizeNdvi (xs : List Rat) : List Rat :=
  let mn := listMin xs
  let mx := listMax xs
  if mx - mn > 0 then xs.map (fun x => (x - mn) / (mx - mn))
  else xs.map (fun _ => 0)

/-- Outcome of one year's `request.get_data()` call in `src/def.py:90`:
an exception (with its text) or the returned list of arrays, each array
flattened to a pixel list. -/
inductive YearOutcome where
  | exn (e : String)
  | data (arrays : List (List Rat))

/-- Output file name for a year, `src/def.py:111`. -/
def frameName (y : Int) : String :=
  ("frame_") ++ toString y ++ (".png")

/-- One iteration of the year loop, `src/def.py:42-118`: an exception is
caught and the year skipped; an empty result list or an empty first array
(`not data or data[0].size == 0`) is logged and skipped; otherwise the
first array is normalized and written as `frame_<year>.png`.  The result
is the file written for that year (year, file name, pixel content), if
any. -/
def processYear (provider : Int → YearOutcome) (y : Int) :
    Option (Int × String × List Rat) :=
  match provider y with
  | .exn _ => none
  | .data [] => none
  | .data (a :: _) => if a.isEmpty then none else some (y, frameName y, normalizeNdvi a)

/-- `range(start_year, end_year + 1)` of `src/def.py:42`. -/
def yearRange (start_year end_year : Int) : List Int :=
  (List.range (end_year + 1 - start_year).toNat).map
    (fun (i : Nat) => start_year + (i : Int))

/-- `get_ndvi_images_from_sentinelhub` of `src/def.py:23-118`, as the list
of files written, in processing order. -/
def get_ndvi_images_from_sentinelhub (provider : Int → YearOutcome)
    (start_year end_year : Int) : List (Int × String × List Rat) :=
  (yearRange start_year end_year).filterMap (processYear provider)

/-- Whether a year produces no file: provider exception, empty data list,
or empty first array. -/
def yearFails (provider : Int → YearOutcome) (y : Int) : Bool :=
  match provider y with
  | .exn _ => true
  | .data [] => true
  | .data (a :: _) => a.isEmpty

/-- The whole script of `src/def.py`: the module-level credential check of
lines 15-21 (`if not config.sh_client_id or not config.sh_client_secret`,
i.e. Python string truthiness) calls `exit()` before any request is
issued; only when both credentials are non-empty does the job run. -/
def runImageryScript (clientId clientSecret : String)
    (provider : Int → YearOutcome) (start_year end_year : Int) :
    Option (List (Int × String × List Rat)) :=
  if clientId.isEmpty || clientSecret.isEmpty then none
  else some (get_ndvi_images_from_sentinelhub provider start_year end_year)

/-- A fixed all-failing environment: the geocoder finds nothing, both HTTP
calls raise. -/
def env0 : Env where
  geocoder := fun _ => .noMatch
  air := fun _ _ => .exn ("air down")
  weather := fun _ _ => .exn ("weather down")

theorem parsePartsUnsigned_isSome (sign : Bool) (cs : List Char)
    (h : mantissaPat cs = true) :
    (parsePartsUnsigned sign cs).isSome = true := by
  unfold mantissaPat at h
  unfold parsePartsUnsigned
  rcases hsp : cs.span Char.isDigit with ⟨d, r⟩
  rw [hsp] at h
  simp only [Bool.and_eq_true] at h
  obtain ⟨h1, h2⟩ := h
  rw [Bool.not_eq_true'] at h1
  simp only [h1, if_false]
  cases r with
  | nil => rfl
  | cons c rest =>
    simp only at h2
    simp [h2]

theorem parseParts_isSome (cs : List Char) (h : halfPat cs = true) :
    (parseParts cs).isSome = true := by
  unfold halfPat at h
  unfold parseParts
  cases cs with
  | nil => exact parsePartsUnsigned_isSome false [] h
  | cons c rest =>
    by_cases hc : c = '-'
    · simp only [hc, if_true, if_pos] at h ⊢
      exact parsePartsUnsigned_isSome true rest h
    · simp only [hc, if_false, if_neg] at h ⊢
      exact parsePartsUnsigned_isSome false _ h

theorem parseHalf_isSome (cs : List Char) (h : halfPat cs = true) :
    (parseHalf cs).isSome = true := by
  unfold parseHalf
  rcases Option.isSome_iff_exists.mp (parseParts_isSome cs h) with ⟨t, ht⟩
  rw [ht]
  rfl

theorem parseHalf_eval (cs : List Char) (sign : Bool) (d f : List Char)
    (h : parseParts cs = some (sign, d, f)) :
    parseHalf cs = some (partsToRat sign d f) := by
  unfold parseHalf
  rw [h]
  rfl

theorem parseCoordPair_eval (s : String) (a b : List Char) (x y : Rat)
    (hs : splitOnChar ',' s.toList = [a, b])
    (ha : parseHalf a = some x) (hb : parseHalf b = some y) :
    parseCoordPair s = some (x, y) := by
  unfold parseCoordPair
  rw [hs]
  simp only [ha, hb]

theorem resolveToken_of_parse (g : String → GeoOutcome) (tok : String) (x y : Rat)
    (hm : coordMatch tok = true) (hp : parseCoordPair tok = some (x, y)) :
    resolveToken g tok = ((some x, some y), false) := by
  unfold resolveToken
  simp [hm, hp]

theorem parseCoordPair_isSome (s : String) (h : coordMatch s = true) :
    ∃ x y, parseCoordPair s = some (x, y) := by
  unfold coordMatch at h
  split at h
  next a b heq =>
    simp only [Bool.and_eq_true] at h
    rcases Option.isSome_iff_exists.mp (parseHalf_isSome _ h.1) with ⟨x, hx⟩
    rcases Option.isSome_iff_exists.mp (parseHalf_isSome _ h.2) with ⟨y, hy⟩
    refine ⟨x, y, ?_⟩
    unfold parseCoordPair
    rw [heq]
    simp only [hx, hy]
  next => simp at h

/-- Claim C3: a token matching the coordinate-pair regex always parses
(both halves are accepted by `float`), the resolver returns exactly the
parsed pair, and the geocoding collaborator is never invoked (the
invocation flag is `false`, for every geocoder). -/
theorem C3_coord_token_resolved_without_geocoder (env : Env) (tok : String)
    (h : coordMatch tok = true) :
    ∃ x y, parseCoordPair tok = some (x, y) ∧
      resolveToken env.geocoder tok = ((some x, some y), false) := by
  rcases parseCoordPair_isSome tok h with ⟨x, y, hxy⟩
  refine ⟨x, y, hxy, ?_⟩
  unfold resolveToken
  simp [h, hxy]

/-- Witness for C3 at the spec's example token: the parse yields exactly
`(40.0, -74.0)`. -/
theorem part40 : partsToRat false (['4', '0']) (['0']) = 40 := by
  unfold partsToRat
  rw [show digitsToNat (['4', '0']) = 40 from by decide,
    show digitsToNat (['0']) = 0 from by decide]
  norm_num

theorem part74neg : partsToRat true (['7', '4']) (['0']) = -74 := by
  unfold partsToRat
  rw [show digitsToNat (['7', '4']) = 74 from by decide,
    show digitsToNat (['0']) = 0 from by decide]
  norm_num

theorem part0 : partsToRat false (['0']) (['0']) = 0 := by
  unfold partsToRat
  rw [show digitsToNat (['0']) = 0 from by decide]
  norm_num

theorem parse_40_74 : parseCoordPair ("40.0,-74.0") = some (40, -74) :=
  parseCoordPair_eval ("40.0,-74.0") (['4', '0', '.', '0'])
    (['-', '7', '4', '.', '0']) 40 (-74) (by decide)
    (by rw [parseHalf_eval _ false (['4', '0']) (['0']) (by decide), part40])
    (by rw [parseHalf_eval _ true (['7', '4']) (['0']) (by decide), part74neg])

/-- Witness for C3 at the spec's example token: the parse yields exactly
`(40.0, -74.0)`. -/
theorem C3_coord_token_resolved_without_geocoder_witness :
    coordMatch ("40.0,-74.0") = true ∧
    parseCoordPair ("40.0,-74.0") = some (40, -74) ∧
    ∃ x y, parseCoordPair ("40.0,-74.0") = some (x, y) ∧
      resolveToken env0.geocoder ("40.0,-74.0") = ((some x, some y), false) :=
  ⟨by decide, parse_40_74,
   C3_coord_token_resolved_without_geocoder env0 ("40.0,-74.0") (by decide)⟩

/-- Claim C10: a coordinate pair whose halves parse to 0.0 resolves to the
exact zero coordinates without consulting the geocoder, because the
unresolved sentinel is tested with `is None`, not numeric falsiness; the
batch loop then proceeds to fetch data for it. -/
theorem C10_zero_coordinates_resolve (env : Env) :
    resolveToken env.geocoder ("0,0") = ((some 0, some 0), false) ∧
    resolveToken env.geocoder ("0.0,0.0") = ((some 0, some 0), false) ∧
    resolveToken env.geocoder ("0.0,-74.0") = ((some 0, some (-74)), false) ∧
    processToken env ("0,0") =
      get_single_location_data 0 0 (env.air 0 0) (env.weather 0 0) := by
  have hz : partsToRat false (['0']) ([]) = 0 := by
    unfold partsToRat
    rw [show digitsToNat (['0']) = 0 from by decide]
    norm_num
  have h00 : parseCoordPair ("0,0") = some (0, 0) :=
    parseCoordPair_eval _ (['0']) (['0']) 0 0 (by decide)
      (by rw [parseHalf_eval _ false (['0']) ([]) (by decide), hz])
      (by rw [parseHalf_eval _ false (['0']) ([]) (by decide), hz])
  have h0000 : parseCoordPair ("0.0,0.0") = some (0, 0) :=
    parseCoordPair_eval _ (['0', '.', '0']) (['0', '.', '0']) 0 0 (by decide)
      (by rw [parseHalf_eval _ false (['0']) (['0']) (by decide), part0])
      (by rw [parseHalf_eval _ false (['0']) (['0']) (by decide), part0])
  have h0074 : parseCoordPair ("0.0,-74.0") = some (0, -74) :=
    parseCoordPair_eval _ (['0', '.', '0']) (['-', '7', '4', '.', '0']) 0 (-74)
      (by decide)
      (by rw [parseHalf_eval _ false (['0']) (['0']) (by decide), part0])
      (by rw [parseHalf_eval _ true (['7', '4']) (['0']) (by decide), part74neg])
  refine ⟨resolveToken_of_parse _ _ _ _ (by decide) h00,
    resolveToken_of_parse _ _ _ _ (by decide) h0000,
    resolveToken_of_parse _ _ _ _ (by decide) h0074, ?_⟩
  unfold processToken
  rw [resolveToken_of_parse env.geocoder ("0,0") 0 0 (by decide) h00]

/-- Claim C5: when the geocoder finds no match or raises one of the two
caught exception classes, `get_coordinates_from_location` absorbs the
failure into `(None, None)` (it is total, nothing propagates), and the
batch loop appends exactly the unresolved-token failure record. -/
theorem C5_geocoder_failure_yields_failure_record (env : Env) (tok : String)
    (hpat : coordMatch tok = false)
    (hgeo : env.geocoder tok = .noMatch ∨ ∃ e, env.geocoder tok = .err e) :
    get_coordinates_from_location env.geocoder tok = (none, none) ∧
    processToken env tok =
      [(("success"), .vB false),
       (("location_input"), .vS tok),
       (("error"), .vS (("Could not find coordinates for location: ") ++ tok))] := by
  have hcoord : get_coordinates_from_location env.geocoder tok = (none, none) := by
    unfold get_coordinates_from_location
    rcases hgeo with h | ⟨e, h⟩ <;> rw [h]
  refine ⟨hcoord, ?_⟩
  unfold processToken resolveToken
  simp [hpat, hcoord]
  rfl

/-- Witness for C5 with the all-failing environment and a place name. -/
theorem C5_geocoder_failure_yields_failure_record_witness :
    get_coordinates_from_location env0.geocoder ("Paris") = (none, none) ∧
    processToken env0 ("Paris") =
      [(("success"), .vB false),
       (("location_input"), .vS ("Paris")),
       (("error"), .vS (("Could not find coordinates for location: ") ++ ("Paris")))] :=
  C5_geocoder_failure_yields_failure_record env0 ("Paris") (by decide) (Or.inl rfl)

/-- Claim C1: the batch endpoint appends exactly one record per non-empty
trimmed token, in input order: the results sequence is the token list
mapped through the per-token loop body, so its length equals the token
count and the record at each index is the one of the token at that
index. -/
theorem C1_one_record_per_token_in_order (env : Env) (input : String)
    (h : tokenize input ≠ []) :
    ∃ rs, (get_data_endpoint env input).results = some rs ∧
      rs.length = (tokenize input).length ∧
      ∀ i : Nat, rs[i]? = ((tokenize input)[i]?).map (processToken env) := by
  refine ⟨(tokenize input).map (processToken env), ?_, by simp, fun i => by simp⟩
  have he : ((tokenize input).map (processToken env)).isEmpty = false := by
    cases ht : tokenize input with
    | nil => exact absurd ht h
    | cons a l => rfl
  unfold get_data_endpoint
  simp [he]

/-- Witness for C1 at the spec's example input, whose token count is 2. -/
theorem C1_one_record_per_token_in_order_witness :
    tokenize ("40.0,-74.0;Paris") ≠ [] ∧
    (tokenize ("40.0,-74.0;Paris")).length = 2 ∧
    ∃ rs, (get_data_endpoint env0 ("40.0,-74.0;Paris")).results = some rs ∧
      rs.length = (tokenize ("40.0,-74.0;Paris")).length ∧
      ∀ i : Nat, rs[i]? =
        ((tokenize ("40.0,-74.0;Paris"))[i]?).map (processToken env0) :=
  ⟨by decide, by decide,
   C1_one_record_per_token_in_order env0 ("40.0,-74.0;Paris") (by decide)⟩

/-- Claim C2: an input with no non-empty token yields the fixed 400
failure response; an input with at least one token yields the 200 success
response with the ordered results, whatever the per-token outcomes (the
environment is arbitrary, so this holds even when every record is a
failure record). -/
theorem C2_empty_tokens_400_else_batch_success (env : Env) (input : String) :
    (tokenize input = [] →
      get_data_endpoint env input =
        { status := 400, success := false, error := some invalidInputMsg,
          results := none }) ∧
    (tokenize input ≠ [] →
      (get_data_endpoint env input).status = 200 ∧
      (get_data_endpoint env input).success = true ∧
      (get_data_endpoint env input).error = none ∧
      (get_data_endpoint env input).results =
        some ((tokenize input).map (processToken env))) := by
  constructor
  · intro h
    unfold get_data_endpoint
    simp [h]
  · intro h
    have he : ((tokenize input).map (processToken env)).isEmpty = false := by
      cases ht : tokenize input with
      | nil => exact absurd ht h
      | cons a l => rfl
    unfold get_data_endpoint
    simp [he]

/-- Witness for C2: a whitespace-and-semicolons input gets the 400
response; an input whose every record fails (the all-failing environment)
still gets the 200 batch success. -/
theorem C2_empty_tokens_400_else_batch_success_witness :
    get_data_endpoint env0 ("   ;  ; ") =
      { status := 400, success := false, error := some invalidInputMsg,
        results := none } ∧
    ((get_data_endpoint env0 ("Paris;40.0,-74.0")).status = 200 ∧
      (get_data_endpoint env0 ("Paris;40.0,-74.0")).success = true ∧
      (get_data_endpoint env0 ("Paris;40.0,-74.0")).error = none ∧
      (get_data_endpoint env0 ("Paris;40.0,-74.0")).results =
        some ((tokenize ("Paris;40.0,-74.0")).map (processToken env0))) :=
  ⟨(C2_empty_tokens_400_else_batch_success env0 ("   ;  ; ")).1 (by decide),
   (C2_empty_tokens_400_else_batch_success env0 ("Paris;40.0,-74.0")).2 (by decide)⟩

/-- The failure conditions of claim C4: either HTTP call raises, or an
expected key is structurally absent from either body. -/
def fetchStepFails (airOut weatherOut : FetchOutcome) : Prop :=
  (∃ e, airOut = .exn e) ∨ (∃ e, weatherOut = .exn e) ∨
  (∃ b, airOut = .ok b ∧ (b.current = none ∨ b.current_units = none)) ∨
  (∃ b, weatherOut = .ok b ∧ (b.current = none ∨ b.current_units = none))

/-- Claim C4: any exception in the two-call sequence, or any structurally
absent `current` / `current_units` key, collapses the whole point to the
single failure record with the same coordinates and an error string
embedding the exception text; the record carries no measurement fields,
so there is no partial-success state. -/
theorem C4_any_failure_collapses_to_failure_record (lat lon : Rat)
    (airOut weatherOut : FetchOutcome) (h : fetchStepFails airOut weatherOut) :
    ∃ e, get_single_location_data lat lon airOut weatherOut =
      [(("success"), .vB false),
       (("latitude"), .vQ lat),
       (("longitude"), .vQ lon),
       (("error"), .vS (("Failed to fetch data: ") ++ e))] := by
  cases airOut with
  | exn e => exact ⟨e, rfl⟩
  | ok airBody =>
    cases weatherOut with
    | exn e => exact ⟨e, rfl⟩
    | ok wBody =>
      rcases hac : airBody.current with _ | airCur
      · refine ⟨keyErrText ("current"), ?_⟩
        simp [get_single_location_data, fetchFailRecord, hac]
      · rcases hacu : airBody.current_units with _ | airUnits
        · refine ⟨keyErrText ("current_units"), ?_⟩
          simp [get_single_location_data, fetchFailRecord, hac, hacu]
        · rcases hwc : wBody.current with _ | wCur
          · refine ⟨keyErrText ("current"), ?_⟩
            simp [get_single_location_data, fetchFailRecord, hac, hacu, hwc]
          · rcases hwcu : wBody.current_units with _ | wUnits
            · refine ⟨keyErrText ("current_units"), ?_⟩
              simp [get_single_location_data, fetchFailRecord, hac, hacu, hwc, hwcu]
            · exfalso
              rcases h with ⟨e, he⟩ | ⟨e, he⟩ | ⟨b, hb, hm⟩ | ⟨b, hb, hm⟩
              · exact FetchOutcome.noConfusion he
              · exact FetchOutcome.noConfusion he
              · injection hb with h'
                subst h'
                rcases hm with hm | hm
                · rw [hac] at hm; exact Option.noConfusion hm
                · rw [hacu] at hm; exact Option.noConfusion hm
              · injection hb with h'
                subst h'
                rcases hm with hm | hm
                · rw [hwc] at hm; exact Option.noConfusion hm
                · rw [hwcu] at hm; exact Option.noConfusion hm

/-- Witness for C4: the air-quality call fails while the weather call
would have succeeded, and the point still collapses to one failure
record. -/
theorem C4_any_failure_collapses_to_failure_record_witness :
    fetchStepFails (.exn ("503 Server Error"))
      (.ok { timezone := some ("GMT"), current := some [],
             current_units := some [] }) ∧
    ∃ e, get_single_location_data 1 2 (.exn ("503 Server Error"))
        (.ok { timezone := some ("GMT"), current := some [],
               current_units := some [] }) =
      [(("success"), .vB false),
       (("latitude"), .vQ 1),
       (("longitude"), .vQ 2),
       (("error"), .vS (("Failed to fetch data: ") ++ e))] :=
  ⟨Or.inl ⟨("503 Server Error"), rfl⟩,
   C4_any_failure_collapses_to_failure_record 1 2 _ _
     (Or.inl ⟨("503 Server Error"), rfl⟩)⟩

/-- Claim C6: a successful record is exactly the success record built from
the two bodies, and its measurement formatter renders a value missing from
`current` as the literal "None" before the unit, defaults a unit missing
from `current_units` to "N/A", and renders present fields as the value,
a space, and the unit. -/
theorem C6_missing_fields_render_as_none_and_na (lat lon : Rat)
    (tz tzw : Option String)
    (airCur airUnits wCur wUnits : List (String × String)) :
    get_single_location_data lat lon
        (.ok { timezone := tz, current := some airCur,
               current_units := some airUnits })
        (.ok { timezone := tzw, current := some wCur,
               current_units := some wUnits }) =
      fetchSuccessRecord lat lon tz airCur airUnits wCur wUnits ∧
    (∀ (cur units : List (String × String)) (k : String),
      cur.lookup k = none →
      fmtMeasurement cur units k = ("None") ++ (" ") ++ lookupD units k ("N/A")) ∧
    (∀ (cur units : List (String × String)) (k : String),
      units.lookup k = none →
      fmtMeasurement cur units k = lookupD cur k ("None") ++ (" ") ++ ("N/A")) ∧
    (∀ (cur units : List (String × String)) (k v u : String),
      cur.lookup k = some v → units.lookup k = some u →
      fmtMeasurement cur units k = v ++ (" ") ++ u) := by
  refine ⟨rfl, ?_, ?_, ?_⟩
  · intro cur units k h
    unfold fmtMeasurement lookupD
    rw [h]
    rfl
  · intro cur units k h
    unfold fmtMeasurement lookupD
    rw [h]
    rfl
  · intro cur units k v u hv hu
    unfold fmtMeasurement lookupD
    rw [hv, hu]
    rfl

/-- Witness for C6 on concrete objects: a missing value, a missing unit,
and a present pair. -/
theorem C6_missing_fields_render_as_none_and_na_witness :
    fmtMeasurement [] [(("pm10"), ("µg/m³"))] ("pm10") = ("None µg/m³") ∧
    fmtMeasurement [(("pm10"), ("12.3"))] [] ("pm10") = ("12.3 N/A") ∧
    fmtMeasurement [(("pm10"), ("12.3"))] [(("pm10"), ("µg/m³"))] ("pm10") =
      ("12.3 µg/m³") :=
  ⟨((C6_missing_fields_render_as_none_and_na 0 0 none none [] [] [] []).2.1
      [] [(("pm10"), ("µg/m³"))] ("pm10") rfl).trans (by decide),
   ((C6_missing_fields_render_as_none_and_na 0 0 none none [] [] [] []).2.2.1
      [(("pm10"), ("12.3"))] [] ("pm10") rfl).trans (by decide),
   ((C6_missing_fields_render_as_none_and_na 0 0 none none [] [] [] []).2.2.2
      [(("pm10"), ("12.3"))] [(("pm10"), ("µg/m³"))] ("pm10") ("12.3") ("µg/m³")
      rfl rfl).trans (by decide)⟩

theorem foldl_min_le_init (xs : List Rat) (a : Rat) : xs.foldl min a ≤ a := by
  induction xs generalizing a with
  | nil => exact le_refl a
  | cons c cs ih => exact le_trans (ih (min a c)) (min_le_left a c)

theorem foldl_min_le_mem (xs : List Rat) (b : Rat) (hb : b ∈ xs) :
    ∀ a, xs.foldl min a ≤ b := by
  induction xs with
  | nil => cases hb
  | cons c cs ih =>
    intro a
    rcases List.mem_cons.mp hb with rfl | hb'
    · exact le_trans (foldl_min_le_init cs (min a b)) (min_le_right a b)
    · exact ih hb' (min a c)

theorem le_foldl_min (xs : List Rat) (b : Rat) :
    ∀ a, b ≤ a → (∀ x ∈ xs, b ≤ x) → b ≤ xs.foldl min a := by
  induction xs with
  | nil => intro a ha _; exact ha
  | cons c cs ih =>
    intro a ha hxs
    exact ih (min a c) (le_min ha (hxs c (List.mem_cons_self c cs)))
      (fun x hx => hxs x (List.mem_cons_of_mem c hx))

theorem init_le_foldl_max (xs : List Rat) (a : Rat) : a ≤ xs.foldl max a := by
  induction xs generalizing a with
  | nil => exact le_refl a
  | cons c cs ih => exact le_trans (le_max_left a c) (ih (max a c))

theorem mem_le_foldl_max (xs : List Rat) (b : Rat) (hb : b ∈ xs) :
    ∀ a, b ≤ xs.foldl max a := by
  induction xs with
  | nil => cases hb
  | cons c cs ih =>
    intro a
    rcases List.mem_cons.mp hb with rfl | hb'
    · exact le_trans (le_max_right a b) (init_le_foldl_max cs (max a b))
    · exact ih hb' (max a c)

theorem foldl_max_le (xs : List Rat) (b : Rat) :
    ∀ a, a ≤ b → (∀ x ∈ xs, x ≤ b) → xs.foldl max a ≤ b := by
  induction xs with
  | nil => intro a ha _; exact ha
  | cons c cs ih =>
    intro a ha hxs
    exact ih (max a c) (max_le ha (hxs c (List.mem_cons_self c cs)))
      (fun x hx => hxs x (List.mem_cons_of_mem c hx))

theorem listMin_le (xs : List Rat) (x : Rat) (hx : x ∈ xs) : listMin xs ≤ x := by
  cases xs with
  | nil => cases hx
  | cons c cs =>
    rcases List.mem_cons.mp hx with rfl | hx'
    · exact foldl_min_le_init cs x
    · exact foldl_min_le_mem cs x hx' c

theorem le_listMax (xs : List Rat) (x : Rat) (hx : x ∈ xs) : x ≤ listMax xs := by
  cases xs with
  | nil => cases hx
  | cons c cs =>
    rcases List.mem_cons.mp hx with rfl | hx'
    · exact init_le_foldl_max cs x
    · exact mem_le_foldl_max cs x hx' c

theorem listMin_const (xs : List Rat) (c : Rat) (hne : xs ≠ [])
    (hc : ∀ x ∈ xs, x = c) : listMin xs = c := by
  cases xs with
  | nil => exact absurd rfl hne
  | cons c0 cs =>
    have hc0 : c0 = c := hc c0 (List.mem_cons_self c0 cs)
    refine le_antisymm ?_ ?_
    · rw [← hc0]
      exact foldl_min_le_init cs c0
    · exact le_foldl_min cs c c0 (le_of_eq hc0.symm)
        (fun x hx => le_of_eq (hc x (List.mem_cons_of_mem c0 hx)).symm)

theorem listMax_const (xs : List Rat) (c : Rat) (hne : xs ≠ [])
    (hc : ∀ x ∈ xs, x = c) : listMax xs = c := by
  cases xs with
  | nil => exact absurd rfl hne
  | cons c0 cs =>
    have hc0 : c0 = c := hc c0 (List.mem_cons_self c0 cs)
    refine le_antisymm ?_ ?_
    · exact foldl_max_le cs c c0 (le_of_eq hc0)
        (fun x hx => le_of_eq (hc x (List.mem_cons_of_mem c0 hx)))
    · rw [← hc0]
      exact init_le_foldl_max cs c0

/-- Claim C7: a constant raster normalizes to the all-zero array of the
same shape (the zero-range branch, no division is performed), and a raster
with positive range maps each pixel to (x - min) / (max - min), which lies
in [0, 1]. -/
theorem C7_minmax_normalization (xs : List Rat) (c : Rat) :
    (xs ≠ [] → (∀ x ∈ xs, x = c) →
      normalizeNdvi xs = List.replicate xs.length 0) ∧
    (listMin xs < listMax xs →
      normalizeNdvi xs =
        xs.map (fun x => (x - listMin xs) / (listMax xs - listMin xs)) ∧
      ∀ y ∈ normalizeNdvi xs, 0 ≤ y ∧ y ≤ 1) := by
  constructor
  · intro hne hc
    have hmin : listMin xs = c := listMin_const xs c hne hc
    have hmax : listMax xs = c := listMax_const xs c hne hc
    unfold normalizeNdvi
    rw [hmin, hmax]
    simp
  · intro hlt
    have hpos : listMax xs - listMin xs > 0 := sub_pos.mpr hlt
    have hmap : normalizeNdvi xs =
        xs.map (fun x => (x - listMin xs) / (listMax xs - listMin xs)) := by
      unfold normalizeNdvi
      rw [if_pos hpos]
    refine ⟨hmap, ?_⟩
    intro y hy
    rw [hmap] at hy
    rcases List.mem_map.mp hy with ⟨x, hx, rfl⟩
    constructor
    · exact div_nonneg (sub_nonneg.mpr (listMin_le xs x hx)) (le_of_lt hpos)
    · rw [div_le_one hpos]
      exact sub_le_sub_right (le_listMax xs x hx) _

/-- Witness for C7: a constant raster and a raster with positive range. -/
theorem C7_minmax_normalization_witness :
    normalizeNdvi [(3 : Rat), 3] = List.replicate ([(3 : Rat), 3]).length 0 ∧
    (normalizeNdvi [(0 : Rat), 2] =
      [(0 : Rat), 2].map
        (fun x => (x - listMin [(0 : Rat), 2]) /
          (listMax [(0 : Rat), 2] - listMin [(0 : Rat), 2])) ∧
      ∀ y ∈ normalizeNdvi [(0 : Rat), 2], 0 ≤ y ∧ y ≤ 1) :=
  ⟨(C7_minmax_normalization [3, 3] 3).1 (by decide) (by decide),
   (C7_minmax_normalization [0, 2] 0).2 (by decide)⟩

theorem yearRange_sorted (s e : Int) : List.Sorted (· < ·) (yearRange s e) := by
  unfold yearRange
  exact List.Pairwise.map _ (fun a b h => by omega) (List.sorted_lt_range _)

theorem mem_yearRange (s e y : Int) : y ∈ yearRange s e ↔ s ≤ y ∧ y ≤ e := by
  unfold yearRange
  simp only [List.mem_map, List.mem_range]
  constructor
  · rintro ⟨i, hi, rfl⟩
    omega
  · intro h
    exact ⟨(y - s).toNat, by omega, by omega⟩

theorem processYear_exn (p : Int → YearOutcome) (y : Int) (e : String)
    (hp : p y = .exn e) : processYear p y = none := by
  unfold processYear
  rw [hp]

theorem processYear_nil (p : Int → YearOutcome) (y : Int)
    (hp : p y = .data []) : processYear p y = none := by
  unfold processYear
  rw [hp]

theorem processYear_data (p : Int → YearOutcome) (y : Int) (a : List Rat)
    (rest : List (List Rat)) (hp : p y = .data (a :: rest)) :
    processYear p y =
      if a.isEmpty then none else some (y, frameName y, normalizeNdvi a) := by
  unfold processYear
  rw [hp]

theorem processYear_fst (p : Int → YearOutcome) (y : Int)
    (r : Int × String × List Rat) (h : processYear p y = some r) : r.1 = y := by
  cases hp : p y with
  | exn e => rw [processYear_exn p y e hp] at h; exact Option.noConfusion h
  | data arrays =>
    cases arrays with
    | nil => rw [processYear_nil p y hp] at h; exact Option.noConfusion h
    | cons a rest =>
      rw [processYear_data p y a rest hp] at h
      by_cases ha : a.isEmpty = true
      · rw [if_pos ha] at h; exact Option.noConfusion h
      · rw [if_neg ha] at h
        injection h with h'
        rw [← h']

theorem processYear_none_of_fails (p : Int → YearOutcome) (y : Int)
    (h : yearFails p y = true) : processYear p y = none := by
  unfold yearFails at h
  cases hp : p y with
  | exn e => exact processYear_exn p y e hp
  | data arrays =>
    rw [hp] at h
    cases arrays with
    | nil => exact processYear_nil p y hp
    | cons a rest =>
      have ha : a.isEmpty = true := h
      rw [processYear_data p y a rest hp, if_pos ha]

theorem processYear_some_of_not_fails (p : Int → YearOutcome) (y : Int)
    (h : yearFails p y = false) :
    ∃ a rest, p y = .data (a :: rest) ∧
      processYear p y = some (y, frameName y, normalizeNdvi a) := by
  unfold yearFails at h
  cases hp : p y with
  | exn e =>
    rw [hp] at h
    exact Bool.noConfusion h
  | data arrays =>
    rw [hp] at h
    cases arrays with
    | nil => exact Bool.noConfusion h
    | cons a rest =>
      refine ⟨a, rest, rfl, ?_⟩
      have ha : a.isEmpty = false := h
      rw [processYear_data p y a rest hp, ha]
      rfl

/-- Claim C8: the year loop visits the inclusive range in strictly
ascending order (hence each year exactly once); a year on which the
provider raises or returns no data produces no output file and aborts
nothing, while every other in-range year still produces its
`frame_<year>.png` file with the normalized raster. -/
theorem C8_year_loop_skips_failing_years (p : Int → YearOutcome) (s e : Int) :
    List.Sorted (· < ·) (yearRange s e) ∧
    (∀ y : Int, y ∈ yearRange s e ↔ s ≤ y ∧ y ≤ e) ∧
    (∀ y : Int, yearFails p y = true →
      ∀ r ∈ get_ndvi_images_from_sentinelhub p s e, r.1 ≠ y) ∧
    (∀ y : Int, s ≤ y → y ≤ e → yearFails p y = false →
      ∃ a rest, p y = .data (a :: rest) ∧
        (y, frameName y, normalizeNdvi a) ∈
          get_ndvi_images_from_sentinelhub p s e) := by
  refine ⟨yearRange_sorted s e, fun y => mem_yearRange s e y, ?_, ?_⟩
  · intro y hfail r hr hry
    unfold get_ndvi_images_from_sentinelhub at hr
    rcases List.mem_filterMap.mp hr with ⟨y', hy', hsome⟩
    have hyy : y' = y := (processYear_fst p y' r hsome).symm.trans hry
    rw [hyy] at hsome
    rw [processYear_none_of_fails p y hfail] at hsome
    exact Option.noConfusion hsome
  · intro y hs he hfail
    rcases processYear_some_of_not_fails p y hfail with ⟨a, rest, hpy, hsome⟩
    refine ⟨a, rest, hpy, ?_⟩
    unfold get_ndvi_images_from_sentinelhub
    exact List.mem_filterMap.mpr ⟨y, (mem_yearRange s e y).mpr ⟨hs, he⟩, hsome⟩

/-- A provider that raises for 2016 and returns one 2-pixel array
otherwise. -/
def provider0 : Int → YearOutcome := fun y =>
  if y = 2016 then .exn ("no data") else .data [[0, 1]]

/-- Witness for C8: over 2015-2017 with the 2016 call failing, no output
carries year 2016 and 2015 still produces its frame. -/
theorem C8_year_loop_skips_failing_years_witness :
    (∀ r ∈ get_ndvi_images_from_sentinelhub provider0 2015 2017, r.1 ≠ 2016) ∧
    ∃ a rest, provider0 2015 = .data (a :: rest) ∧
      ((2015 : Int), frameName 2015, normalizeNdvi a) ∈
        get_ndvi_images_from_sentinelhub provider0 2015 2017 :=
  ⟨(C8_year_loop_skips_failing_years provider0 2015 2017).2.2.1 2016 (by decide),
   (C8_year_loop_skips_failing_years provider0 2015 2017).2.2.2 2015
     (by decide) (by decide) (by decide)⟩

/-- Claim C9: with a missing (empty) client ID or client secret the
imagery script refuses to run: the module-level truthiness check of
`src/def.py:19-21` exits before any per-year request is issued, so the
job produces nothing. -/
theorem C9_missing_credentials_refuse_to_run (clientId clientSecret : String)
    (p : Int → YearOutcome) (s e : Int)
    (h : clientId = ("") ∨ clientSecret = ("")) :
    runImageryScript clientId clientSecret p s e = none := by
  unfold runImageryScript
  rcases h with h | h
  · subst h; rfl
  · subst h
    rw [show (("") : String).isEmpty = true from rfl, Bool.or_true]
    rfl

/-- Witness for C9: an empty client ID aborts the script. -/
theorem C9_missing_credentials_refuse_to_run_witness :
    runImageryScript ("") ("YOUR_CLIENT_SECRET") provider0 2015 2017 = none :=
  C9_missing_credentials_refuse_to_run ("") ("YOUR_CLIENT_SECRET")
    provider0 2015 2017 (Or.inl rfl)
